import Mathlib

/-!
Verification of the quiz-taking session controller (`QuizTaking` component)
and the AI tutoring proxy (`gemini-chat` edge function) of the mybac
repository, as a shallow embedding in Lean 4.

The quiz component's React state is embedded as an explicit record
(`ComponentState`); each event handler and effect of the component becomes a
pure function on that record, returning the new state together with the
observable side effects (persistence update calls, activity-log calls, error
toasts, navigation).  The `selectedAnswers` record (a JS object mapping
question id to the chosen option letter) is embedded as a function
`String → Option String`; an absent key is `none`, matching the fact that in
JS an absent key reads as `undefined` and `undefined === someString` is
false.
-/

/-- A row of the `quiz_attempts` table (interface `QuizAttempt` plus the
`student_id` column used by the ownership filter of the load query). -/
structure QuizAttempt where
  id : String
  quiz_id : String
  score : Nat
  answers : List String
  attempt_number : Nat
  student_id : String
deriving DecidableEq, Repr

/-- A question record (interface `Question`). -/
structure Question where
  id : String
  question_text : String
  option_a : String
  option_b : String
  option_c : String
  option_d : String
  correct_answer : String
  difficulty : Option String
deriving DecidableEq, Repr

/-- A row of the `quizzes` table (interface `Quiz`).  The untyped
`questions: any[]` payload is embedded as a typed list of `Question`. -/
structure Quiz where
  id : String
  subject : String
  chapter : Option String
  questions : List Question
  max_score : Nat
  type : String
deriving DecidableEq, Repr

/-- The in-memory selection mapping: question id ↦ chosen option letter.
An unanswered question is simply absent (`none`). -/
def Selections : Type := String → Option String

/-- The React state of the `QuizTaking` component: one field per `useState`
hook, in source order. -/
structure ComponentState where
  attempt : Option QuizAttempt
  quiz : Option Quiz
  questions : List Question
  currentQuestionIndex : Nat
  selectedAnswers : Selections
  timeLeft : Nat
  isSubmitting : Bool
  loading : Bool

/-- The component state at mount: `useState` initial values
(`null`, `null`, `[]`, `0`, `{}`, `1800`, `false`, `true`). -/
def initialState : ComponentState :=
  { attempt := none
    quiz := none
    questions := []
    currentQuestionIndex := 0
    selectedAnswers := fun _ => none
    timeLeft := 1800
    isSubmitting := false
    loading := true }

/-- Handler `handleAnswerSelect(questionId, answer)`: spreads the previous mapping
and overrides the entry at `questionId`. -/
def handleAnswerSelect (s : ComponentState) (questionId answer : String) :
    ComponentState :=
  { s with selectedAnswers :=
      fun k => if k = questionId then some answer else s.selectedAnswers k }

/-- Handler `handleNextQuestion()`: advances the cursor only while strictly below
`questions.length - 1`.  (JS evaluates `questions.length - 1` as `-1` on an
empty list and the comparison is then false; truncated `Nat` subtraction
gives the same false comparison, `0 < 0`.) -/
def handleNextQuestion (s : ComponentState) : ComponentState :=
  if s.currentQuestionIndex < s.questions.length - 1 then
    { s with currentQuestionIndex := s.currentQuestionIndex + 1 }
  else s

/-- Handler `handlePreviousQuestion()`: retreats the cursor only while strictly
above 0. -/
def handlePreviousQuestion (s : ComponentState) : ComponentState :=
  if s.currentQuestionIndex > 0 then
    { s with currentQuestionIndex := s.currentQuestionIndex - 1 }
  else s

/-- Function `calculateScore()`: counts the questions whose recorded selection equals
the correct answer (the `forEach` counter loop), then multiplies by the
per-question value selected by `quiz?.type === 'daily'` (25, else 8; a null
quiz also selects 8). -/
def calculateScore (s : ComponentState) : Nat :=
  let correctAnswers :=
    s.questions.countP (fun q => s.selectedAnswers q.id == some q.correct_answer)
  let pointsPerQuestion := if s.quiz.map Quiz.type == some "daily" then 25 else 8
  correctAnswers * pointsPerQuestion

/-- The score as the SPEC words it (for the refinement claim C1): every
question of the quiz whose recorded selection equals its correct option
letter contributes the per-question value (25 if the quiz's type tag is
"daily", 8 otherwise); unanswered or mismatched questions contribute zero;
the score is the sum. -/
def specScore (Q : Quiz) (S : Selections) : Nat :=
  (Q.questions.map (fun q =>
    if S q.id = some q.correct_answer then
      (if Q.type = "daily" then 25 else 8)
    else 0)).sum

/-- Counting matches and multiplying by a constant equals summing the
constant over the matches. -/
theorem countP_mul_eq_sum_map {α : Type} (l : List α) (p : α → Bool) (c : Nat) :
    l.countP p * c = (l.map (fun x => if p x then c else 0)).sum := by
  induction l with
  | nil => simp
  | cons x xs ih =>
    rw [List.countP_cons]
    by_cases hx : p x
    · simp [hx, Nat.add_mul, ih, Nat.add_comm]
    · simp [hx, ih]

/-- C1: For every quiz Q and selection mapping S, `calculateScore` on a
session state holding Q and S equals the number of questions of Q whose
recorded selection equals the correct option letter, times 25 when Q's type
tag is "daily" and 8 otherwise (stated via `specScore`, the spec-side
formula in which unanswered or mismatched questions contribute zero). -/
theorem calculateScore_eq_specScore (Q : Quiz) (S : Selections)
    (s : ComponentState) (hq : s.quiz = some Q) (hqs : s.questions = Q.questions)
    (hS : s.selectedAnswers = S) :
    calculateScore s = specScore Q S := by
  unfold calculateScore specScore
  rw [hq, hqs, hS]
  rw [countP_mul_eq_sum_map]
  congr 1
  apply List.map_congr_left
  intro q _
  by_cases hmatch : S q.id = some q.correct_answer
  · by_cases hd : Q.type = "daily" <;> simp [hmatch, hd, Option.map]
  · simp [hmatch]

/-- Witness for C1 at a concrete quiz (2 questions, type "daily", one
matching selection): score 1 × 25 = 25. -/
theorem calculateScore_eq_specScore_witness :
    calculateScore
      { attempt := none
        quiz := some { id := "q"
                       subject := "math"
                       chapter := none
                       questions :=
                        [{ id := "1", question_text := "t1", option_a := "a",
                           option_b := "b", option_c := "c", option_d := "d",
                           correct_answer := "A", difficulty := none },
                         { id := "2", question_text := "t2", option_a := "a",
                           option_b := "b", option_c := "c", option_d := "d",
                           correct_answer := "B", difficulty := none }]
                       max_score := 100
                       type := "daily" }
        questions :=
          [{ id := "1", question_text := "t1", option_a := "a",
             option_b := "b", option_c := "c", option_d := "d",
             correct_answer := "A", difficulty := none },
           { id := "2", question_text := "t2", option_a := "a",
             option_b := "b", option_c := "c", option_d := "d",
             correct_answer := "B", difficulty := none }]
        currentQuestionIndex := 0
        selectedAnswers := fun k => if k = "1" then some "A" else none
        timeLeft := 1800
        isSubmitting := false
        loading := false } =
    specScore
      { id := "q"
        subject := "math"
        chapter := none
        questions :=
          [{ id := "1", question_text := "t1", option_a := "a",
             option_b := "b", option_c := "c", option_d := "d",
             correct_answer := "A", difficulty := none },
           { id := "2", question_text := "t2", option_a := "a",
             option_b := "b", option_c := "c", option_d := "d",
             correct_answer := "B", difficulty := none }]
        max_score := 100
        type := "daily" }
      (fun k => if k = "1" then some "A" else none) :=
  calculateScore_eq_specScore _ _ _ rfl rfl rfl

/-- C5: `calculateScore` is invariant under adding an entry at a key that is
not the id of any question of the loaded quiz: writing any answer at such a
key through `handleAnswerSelect` leaves the score unchanged. -/
theorem calculateScore_extra_key (s : ComponentState) (k v : String)
    (hk : ∀ q ∈ s.questions, q.id ≠ k) :
    calculateScore (handleAnswerSelect s k v) = calculateScore s := by
  unfold calculateScore handleAnswerSelect
  simp only
  congr 1
  apply List.countP_congr
  intro q hq
  have hne : q.id ≠ k := hk q hq
  simp [hne]

/-- Witness for C5: a 1-question session where an answer recorded at the
foreign key "zzz" does not change the score. -/
theorem calculateScore_extra_key_witness :
    calculateScore
      (handleAnswerSelect
        { attempt := none
          quiz := none
          questions :=
            [{ id := "1", question_text := "t", option_a := "a",
               option_b := "b", option_c := "c", option_d := "d",
               correct_answer := "A", difficulty := none }]
          currentQuestionIndex := 0
          selectedAnswers := fun k => if k = "1" then some "A" else none
          timeLeft := 1800
          isSubmitting := false
          loading := false } "zzz" "B") =
    calculateScore
      { attempt := none
        quiz := none
        questions :=
          [{ id := "1", question_text := "t", option_a := "a",
             option_b := "b", option_c := "c", option_d := "d",
             correct_answer := "A", difficulty := none }]
        currentQuestionIndex := 0
        selectedAnswers := fun k => if k = "1" then some "A" else none
        timeLeft := 1800
        isSubmitting := false
        loading := false } :=
  calculateScore_extra_key _ "zzz" "B" (by decide)

/-- C6: the navigation handlers keep the cursor within
`[0, questions.length - 1]`: `handleNextQuestion` at the last index is a
no-op and otherwise moves the cursor up by one; `handlePreviousQuestion` at
index 0 is a no-op and otherwise moves the cursor down by one; both preserve
`cursor < questions.length`. -/
theorem navigation_bounded (s : ComponentState) :
    (s.currentQuestionIndex = s.questions.length - 1 →
      handleNextQuestion s = s) ∧
    (s.currentQuestionIndex < s.questions.length - 1 →
      handleNextQuestion s =
        { s with currentQuestionIndex := s.currentQuestionIndex + 1 }) ∧
    (s.currentQuestionIndex = 0 → handlePreviousQuestion s = s) ∧
    (0 < s.currentQuestionIndex →
      handlePreviousQuestion s =
        { s with currentQuestionIndex := s.currentQuestionIndex - 1 }) ∧
    (s.currentQuestionIndex < s.questions.length →
      (handleNextQuestion s).currentQuestionIndex < s.questions.length ∧
      (handlePreviousQuestion s).currentQuestionIndex < s.questions.length) := by
  refine ⟨?_, ?_, ?_, ?_, ?_⟩
  · intro h
    unfold handleNextQuestion
    simp [h]
  · intro h
    unfold handleNextQuestion
    simp [h]
  · intro h
    unfold handlePreviousQuestion
    simp [h]
  · intro h
    unfold handlePreviousQuestion
    simp [h]
  · intro h
    constructor
    · unfold handleNextQuestion
      by_cases hlt : s.currentQuestionIndex < s.questions.length - 1
      · simp only [hlt, if_true]
        omega
      · simp only [hlt, if_false]
        exact h
    · unfold handlePreviousQuestion
      by_cases hpos : 0 < s.currentQuestionIndex
      · simp only [hpos, if_true]
        omega
      · simp only [hpos, if_false]
        exact h

/-- The observable outcome of one `handleSubmitQuiz()` invocation: the
resulting component state, the scores written by `quiz_attempts` update
calls (one list entry per update call issued), the per-question
`trackQuizQuestion` log calls (question id, student answer, correct answer,
correctness flag), and whether `navigate('/quizzes')` was called. -/
structure SubmitOutcome where
  state : ComponentState
  updateScores : List Nat
  logCalls : List (String × String × String × Bool)
  navigatedAway : Bool

/-- The synchronous head of `handleSubmitQuiz()`, up to its first `await`:
`if (isSubmitting) return; setIsSubmitting(true);`.  Returns the new state
and whether the invocation proceeds past the guard. -/
def handleSubmitQuizBegin (s : ComponentState) : ComponentState × Bool :=
  if s.isSubmitting then (s, false) else ({ s with isSubmitting := true }, true)

/-- The remainder of `handleSubmitQuiz()` after the guard: computes the
final score, issues the single `quiz_attempts` update call, issues one
`trackQuizQuestion` call per question (student answer defaulted to the
empty string when unanswered), navigates away, and in `finally` resets
`isSubmitting`.  This embeds the success path of the update call; an update
failure only replaces the confirmation toast with an error toast and skips
the navigation, and the `finally` reset runs either way. -/
def handleSubmitQuizRest (s1 : ComponentState) : SubmitOutcome :=
  let finalScore := calculateScore s1
  let logs := s1.questions.map (fun q =>
    let studentAnswer := (s1.selectedAnswers q.id).getD ""
    (q.id, studentAnswer, q.correct_answer, studentAnswer == q.correct_answer))
  { state := { s1 with isSubmitting := false }
    updateScores := [finalScore]
    logCalls := logs
    navigatedAway := true }

/-- Handler `handleSubmitQuiz()` as one uninterrupted run: the guard followed, when
it proceeds, by the body. -/
def handleSubmitQuiz (s : ComponentState) : SubmitOutcome :=
  let r := handleSubmitQuizBegin s
  if r.2 then handleSubmitQuizRest r.1
  else { state := r.1, updateScores := [], logCalls := [], navigatedAway := false }

/-- Two `handleSubmitQuiz()` invocations in immediate succession: the first
passes its guard and suspends at its first `await`; the second then runs in
full while the first is in progress; the first resumes and finishes.
Returns the final state and the total number of `quiz_attempts` update
calls issued by the two invocations. -/
def submitTwiceOverlapped (s : ComponentState) : ComponentState × Nat :=
  let r1 := handleSubmitQuizBegin s
  let o2 := handleSubmitQuiz r1.1
  if r1.2 then
    let o1 := handleSubmitQuizRest o2.state
    (o1.state, o2.updateScores.length + o1.updateScores.length)
  else (o2.state, o2.updateScores.length)

/-- C2: from a state that is not already submitting, two `handleSubmitQuiz`
invocations in immediate succession (the second arriving while the first is
in progress) issue exactly one score-persistence update call, and the
second invocation is a no-op: it changes no state and issues no update, no
log call and no navigation. -/
theorem submit_guard_once (s : ComponentState) (h : s.isSubmitting = false) :
    (submitTwiceOverlapped s).2 = 1 ∧
    handleSubmitQuiz (handleSubmitQuizBegin s).1 =
      { state := (handleSubmitQuizBegin s).1
        updateScores := []
        logCalls := []
        navigatedAway := false } := by
  unfold submitTwiceOverlapped handleSubmitQuiz handleSubmitQuizBegin
    handleSubmitQuizRest
  simp [h]

/-- Witness for C2 at the mount state (not submitting): exactly one update
call across the overlapped double invocation. -/
theorem submit_guard_once_witness :
    (submitTwiceOverlapped initialState).2 = 1 ∧
    handleSubmitQuiz (handleSubmitQuizBegin initialState).1 =
      { state := (handleSubmitQuizBegin initialState).1
        updateScores := []
        logCalls := []
        navigatedAway := false } :=
  submit_guard_once initialState rfl

/-- The countdown effect (`useEffect` with dependency `[timeLeft]`): while
`timeLeft > 0` it schedules a decrement of one; at `timeLeft = 0` it calls
`handleSubmitQuiz()`.  Returns the state after the effect's action and the
scores written by update calls it caused.  The effect reads only `timeLeft`:
it runs in every session state, loading or not. -/
def timerEffect (s : ComponentState) : ComponentState × List Nat :=
  if s.timeLeft > 0 then ({ s with timeLeft := s.timeLeft - 1 }, [])
  else ((handleSubmitQuiz s).state, (handleSubmitQuiz s).updateScores)

/-- The run of the countdown effect under React's dependency semantics: the
effect fires on the current state; it fires again only if the firing changed
`timeLeft` (the effect's sole dependency), otherwise the run stops.  `fuel`
bounds the number of firings. -/
def timerTrace : Nat → ComponentState → ComponentState × List Nat
  | 0, s => (s, [])
  | Nat.succ n, s =>
    if (timerEffect s).1.timeLeft = s.timeLeft then timerEffect s
    else ((timerTrace n (timerEffect s).1).1,
          (timerEffect s).2 ++ (timerTrace n (timerEffect s).1).2)

/-- The `Ready` state of the session: load finished, quiz and questions
populated, no submission in progress. -/
def isReady (s : ComponentState) : Prop :=
  s.loading = false ∧ s.quiz.isSome = true ∧ s.questions ≠ [] ∧
    s.isSubmitting = false

instance (s : ComponentState) : Decidable (isReady s) := by
  unfold isReady
  infer_instance

/-- Function `calculateScore` does not read the `isSubmitting` flag. -/
theorem calculateScore_set_isSubmitting (s : ComponentState) (b : Bool) :
    calculateScore { s with isSubmitting := b } = calculateScore s := rfl

/-- Function `calculateScore` does not read the countdown. -/
theorem calculateScore_set_timeLeft (s : ComponentState) (t : Nat) :
    calculateScore { s with timeLeft := t } = calculateScore s := rfl

/-- A firing of the countdown effect with time remaining decrements
`timeLeft` by one and writes nothing. -/
theorem timerEffect_pos (s : ComponentState) (h : 0 < s.timeLeft) :
    timerEffect s = ({ s with timeLeft := s.timeLeft - 1 }, []) := by
  unfold timerEffect
  rw [if_pos h]

/-- A firing of the countdown effect at zero, with no submission in
progress, runs `handleSubmitQuiz` and issues exactly the one update call
carrying `calculateScore`. -/
theorem timerEffect_zero (s : ComponentState) (h : s.timeLeft = 0)
    (hsub : s.isSubmitting = false) :
    timerEffect s = ({ s with isSubmitting := false }, [calculateScore s]) := by
  unfold timerEffect handleSubmitQuiz handleSubmitQuizBegin handleSubmitQuizRest
  rw [if_neg (by omega)]
  simp [hsub]
  exact calculateScore_set_isSubmitting s true

/-- A countdown run of at most `timeLeft` firings only decrements and never
writes. -/
theorem timerTrace_writes_of_le (fuel : Nat) :
    ∀ s : ComponentState, fuel ≤ s.timeLeft → (timerTrace fuel s).2 = [] := by
  induction fuel with
  | zero => intro s _; rfl
  | succ n ih =>
    intro s h
    have hpos : 0 < s.timeLeft := by omega
    have hstep := timerEffect_pos s hpos
    unfold timerTrace
    rw [hstep]
    have hne : ({ s with timeLeft := s.timeLeft - 1 } :
        ComponentState).timeLeft ≠ s.timeLeft := by
      simp
      omega
    rw [if_neg hne]
    simp only [List.nil_append]
    exact ih _ (by simp; omega)

/-- A countdown run from `timeLeft = t` with more than `t` firings, with no
submission in progress, issues exactly the single update call carrying
`calculateScore`. -/
theorem timerTrace_writes_at_zero (t : Nat) :
    ∀ (s : ComponentState), s.isSubmitting = false → s.timeLeft = t →
      ∀ fuel, t + 1 ≤ fuel → (timerTrace fuel s).2 = [calculateScore s] := by
  induction t with
  | zero =>
    intro s hsub htl fuel hf
    obtain ⟨m, rfl⟩ : ∃ m, fuel = m + 1 := ⟨fuel - 1, by omega⟩
    have hstep := timerEffect_zero s htl hsub
    unfold timerTrace
    rw [hstep]
    rw [if_pos (by simp)]
  | succ k ih =>
    intro s hsub htl fuel hf
    obtain ⟨m, rfl⟩ : ∃ m, fuel = m + 1 := ⟨fuel - 1, by omega⟩
    have hstep := timerEffect_pos s (by omega)
    unfold timerTrace
    rw [hstep]
    have hne : ({ s with timeLeft := s.timeLeft - 1 } :
        ComponentState).timeLeft ≠ s.timeLeft := by
      simp
      omega
    rw [if_neg hne]
    have hrec := ih { s with timeLeft := s.timeLeft - 1 } hsub
      (by simp; omega) m (by omega)
    simp only [List.nil_append]
    rw [hrec, calculateScore_set_timeLeft]

/-- C3: in a `Ready` state the countdown effect decrements `timeLeft` by
exactly one per firing while it is positive; a run of at most `timeLeft`
firings triggers no submit (no update call before zero); and any run long
enough to reach zero triggers exactly one submit, issuing exactly the one
update call carrying the computed score. -/
theorem countdown_ready_single_submit (s : ComponentState) (hready : isReady s) :
    (∀ t, s.timeLeft = t + 1 → timerEffect s = ({ s with timeLeft := t }, [])) ∧
    (∀ fuel, fuel ≤ s.timeLeft → (timerTrace fuel s).2 = []) ∧
    (∀ fuel, s.timeLeft + 1 ≤ fuel →
      (timerTrace fuel s).2 = [calculateScore s]) := by
  refine ⟨?_, ?_, ?_⟩
  · intro t ht
    have := timerEffect_pos s (by omega)
    rw [this, ht]
    simp
  · intro fuel hf
    exact timerTrace_writes_of_le fuel s hf
  · intro fuel hf
    exact timerTrace_writes_at_zero s.timeLeft s hready.2.2.2 rfl fuel hf

/-- A concrete `Ready` state used to witness C3: one question, 2 seconds
left. -/
def readySample : ComponentState :=
  { attempt := none
    quiz := some { id := "q"
                   subject := "math"
                   chapter := none
                   questions :=
                    [{ id := "1", question_text := "t1", option_a := "a",
                       option_b := "b", option_c := "c", option_d := "d",
                       correct_answer := "A", difficulty := none }]
                   max_score := 100
                   type := "daily" }
    questions :=
      [{ id := "1", question_text := "t1", option_a := "a",
         option_b := "b", option_c := "c", option_d := "d",
         correct_answer := "A", difficulty := none }]
    currentQuestionIndex := 0
    selectedAnswers := fun _ => none
    timeLeft := 2
    isSubmitting := false
    loading := false }

/-- Witness for C3 at `readySample` (timeLeft 2): one firing decrements to
1, two firings write nothing, three firings write exactly one score. -/
theorem countdown_ready_single_submit_witness :
    timerEffect readySample = ({ readySample with timeLeft := 1 }, []) ∧
    (timerTrace 2 readySample).2 = [] ∧
    (timerTrace 3 readySample).2 = [calculateScore readySample] := by
  have h := countdown_ready_single_submit readySample (by decide)
  exact ⟨h.1 1 rfl, h.2.1 2 (by decide), h.2.2 3 (by decide)⟩

/-- C10: the countdown runs in every session state, not only `Ready`: at
mount the state is loading with no quiz, no questions, and `timeLeft`
already counting from 1800; in any state with positive `timeLeft` the
effect decrements (so time in `Loading` is charged); and in any
non-submitting state at zero — even with no quiz loaded and zero
questions — the effect invokes the submit handler, which issues its update
call (with score 0 there). -/
theorem countdown_active_in_all_states :
    (initialState.timeLeft = 1800 ∧ initialState.loading = true ∧
      initialState.quiz = none ∧ initialState.questions = []) ∧
    (∀ s : ComponentState, 0 < s.timeLeft →
      timerEffect s = ({ s with timeLeft := s.timeLeft - 1 }, [])) ∧
    (∀ s : ComponentState, s.timeLeft = 0 → s.isSubmitting = false →
      s.quiz = none → s.questions = [] → (timerEffect s).2 = [0]) := by
  refine ⟨⟨rfl, rfl, rfl, rfl⟩, ?_, ?_⟩
  · intro s h
    exact timerEffect_pos s h
  · intro s h hsub hq hqs
    rw [timerEffect_zero s h hsub]
    unfold calculateScore
    rw [hq, hqs]
    rfl

/-- Witness for C10: the effect decrements at the mount state (loading,
no quiz) and, at the mount state with the countdown expired, issues the
update call with score 0 despite the absent quiz and empty question list. -/
theorem countdown_active_in_all_states_witness :
    timerEffect initialState = ({ initialState with timeLeft := 1800 - 1 }, []) ∧
    (timerEffect { initialState with timeLeft := 0 }).2 = [0] := by
  refine ⟨?_, ?_⟩
  · exact countdown_active_in_all_states.2.1 initialState (by decide)
  · exact countdown_active_in_all_states.2.2
      { initialState with timeLeft := 0 } rfl rfl rfl rfl

/-- A concrete 3-question state with the cursor at index 1, used to witness
the moving branches of C6. -/
def navSample : ComponentState :=
  { attempt := none
    quiz := none
    questions :=
      [{ id := "1", question_text := "t1", option_a := "a",
         option_b := "b", option_c := "c", option_d := "d",
         correct_answer := "A", difficulty := none },
       { id := "2", question_text := "t2", option_a := "a",
         option_b := "b", option_c := "c", option_d := "d",
         correct_answer := "B", difficulty := none },
       { id := "3", question_text := "t3", option_a := "a",
         option_b := "b", option_c := "c", option_d := "d",
         correct_answer := "C", difficulty := none }]
    currentQuestionIndex := 1
    selectedAnswers := fun _ => none
    timeLeft := 1800
    isSubmitting := false
    loading := false }

/-- Witness for C6: at `readySample` (1 question, cursor 0) both handlers
are no-ops; at `navSample` (3 questions, cursor 1) both handlers move the
cursor by exactly one and stay in bounds. -/
theorem navigation_bounded_witness :
    handleNextQuestion readySample = readySample ∧
    handlePreviousQuestion readySample = readySample ∧
    handleNextQuestion navSample =
      { navSample with currentQuestionIndex := 2 } ∧
    handlePreviousQuestion navSample =
      { navSample with currentQuestionIndex := 0 } ∧
    (handleNextQuestion navSample).currentQuestionIndex <
      navSample.questions.length := by
  have hA := navigation_bounded readySample
  have hB := navigation_bounded navSample
  exact ⟨hA.1 rfl, hA.2.2.1 rfl, hB.2.1 (by decide),
    hB.2.2.2.1 (by decide), ((hB.2.2.2.2 (by decide)).1 : _)⟩

/-- The two tables read by `fetchQuizAttempt`. -/
structure Db where
  quiz_attempts : List QuizAttempt
  quizzes : List Quiz
deriving DecidableEq, Repr

/-- The load query for the attempt:
`from('quiz_attempts').select('*').eq('id', attemptId)
.eq('student_id', user.id).single()` — `.single()` succeeds exactly when
the two filters match exactly one row; otherwise it reports an error (the
not-found error of the claim). -/
def singleAttempt (db : Db) (attemptId userId : String) : Option QuizAttempt :=
  match db.quiz_attempts.filter
      (fun a => a.id == attemptId && a.student_id == userId) with
  | [a] => some a
  | _ => none

/-- The load query for the quiz:
`from('quizzes').select('*').eq('id', quizId).single()`. -/
def singleQuiz (db : Db) (quizId : String) : Option Quiz :=
  match db.quizzes.filter (fun q => q.id == quizId) with
  | [q] => some q
  | _ => none

/-- Which of the two load queries failed (which error was thrown). -/
inductive FetchError
  | attemptNotFound
  | quizNotFound
deriving DecidableEq, Repr

/-- The observable outcome of `fetchQuizAttempt()`: the resulting component
state, the error thrown (if any), whether the destructive "Failed to load
quiz" toast was shown, and whether `navigate('/quizzes')` was called. -/
structure FetchResult where
  state : ComponentState
  failure : Option FetchError
  toastError : Bool
  navigatedAway : Bool

/-- Loader `fetchQuizAttempt()`: loads the attempt row filtered by id AND owner,
then the quiz row; `setAttempt` runs before the quiz query, so an attempt
error populates nothing while a quiz error leaves the attempt populated; any
error is caught, shows the error toast and navigates away; `finally` clears
`loading` on every path. -/
def fetchQuizAttempt (db : Db) (attemptId userId : String)
    (s : ComponentState) : FetchResult :=
  match singleAttempt db attemptId userId with
  | none =>
    { state := { s with loading := false }
      failure := some FetchError.attemptNotFound
      toastError := true
      navigatedAway := true }
  | some attemptData =>
    match singleQuiz db attemptData.quiz_id with
    | none =>
      { state := { s with attempt := some attemptData, loading := false }
        failure := some FetchError.quizNotFound
        toastError := true
        navigatedAway := true }
    | some quizData =>
      { state := { s with
          attempt := some attemptData
          quiz := some quizData
          questions := quizData.questions
          loading := false }
        failure := none
        toastError := false
        navigatedAway := false }

/-- C7: loading an attempt id that no row owned by the requesting user
matches fails with the attempt-not-found error, populates no attempt, quiz
or question state, shows the user-visible error toast, and navigates the
caller out of the session. -/
theorem loadAttempt_not_owned (db : Db) (attemptId userId : String)
    (h : ∀ a ∈ db.quiz_attempts, ¬(a.id = attemptId ∧ a.student_id = userId)) :
    fetchQuizAttempt db attemptId userId initialState =
      { state := { initialState with loading := false }
        failure := some FetchError.attemptNotFound
        toastError := true
        navigatedAway := true } ∧
    (fetchQuizAttempt db attemptId userId initialState).state.attempt = none ∧
    (fetchQuizAttempt db attemptId userId initialState).state.quiz = none ∧
    (fetchQuizAttempt db attemptId userId initialState).state.questions = [] := by
  have hfilter : db.quiz_attempts.filter
      (fun a => a.id == attemptId && a.student_id == userId) = [] := by
    rw [List.filter_eq_nil_iff]
    intro a ha
    have := h a ha
    simp only [Bool.and_eq_true, beq_iff_eq]
    intro hc
    exact this ⟨hc.1, hc.2⟩
  have hnone : singleAttempt db attemptId userId = none := by
    unfold singleAttempt
    rw [hfilter]
  have hres : fetchQuizAttempt db attemptId userId initialState =
      { state := { initialState with loading := false }
        failure := some FetchError.attemptNotFound
        toastError := true
        navigatedAway := true } := by
    unfold fetchQuizAttempt
    rw [hnone]
  refine ⟨hres, ?_, ?_, ?_⟩ <;> (rw [hres]; simp [initialState])

/-- A database whose only attempt row "a1" belongs to student "u2", used to
witness C7 with requesting user "u1". -/
def foreignAttemptDb : Db :=
  { quiz_attempts :=
      [{ id := "a1", quiz_id := "q1", score := 0, answers := [],
         attempt_number := 1, student_id := "u2" }]
    quizzes :=
      [{ id := "q1", subject := "math", chapter := none, questions := [],
         max_score := 100, type := "daily" }] }

/-- Witness for C7: requesting attempt "a1" as user "u1" (the row belongs
to "u2") throws the not-found error, populates nothing, toasts and
navigates away. -/
theorem loadAttempt_not_owned_witness :
    fetchQuizAttempt foreignAttemptDb "a1" "u1" initialState =
      { state := { initialState with loading := false }
        failure := some FetchError.attemptNotFound
        toastError := true
        navigatedAway := true } ∧
    (fetchQuizAttempt foreignAttemptDb "a1" "u1" initialState).state.attempt
      = none ∧
    (fetchQuizAttempt foreignAttemptDb "a1" "u1" initialState).state.quiz
      = none ∧
    (fetchQuizAttempt foreignAttemptDb "a1" "u1" initialState).state.questions
      = [] :=
  loadAttempt_not_owned foreignAttemptDb "a1" "u1" (by decide)

/-- What the component renders for a given state: the loading spinner, the
"Quiz not found or has no questions." card (with its back button, which
navigates only when the user presses it), or the quiz session UI. -/
inductive RenderView
  | spinner
  | errorCard
  | session
deriving DecidableEq, Repr

/-- The render-guard chain of the component:
`if (loading) …spinner; if (!quiz || !questions.length) …errorCard; else
session`.  Rendering the error card performs no navigation and no toast. -/
def render (s : ComponentState) : RenderView :=
  if s.loading then RenderView.spinner
  else if s.quiz.isNone || s.questions.isEmpty then RenderView.errorCard
  else RenderView.session

/-- A database whose attempt "a1" (owned by "u1") references quiz "q1"
which has an empty question list. -/
def emptyQuizDb : Db :=
  { quiz_attempts :=
      [{ id := "a1", quiz_id := "q1", score := 0, answers := [],
         attempt_number := 1, student_id := "u1" }]
    quizzes :=
      [{ id := "q1", subject := "math", chapter := none, questions := [],
         max_score := 100, type := "daily" }] }

/-- Counterexample to C4 as stated: loading attempt "a1" of `emptyQuizDb`
(a quiz with zero questions) succeeds without any navigation away and
without any error toast — the controller merely renders the error card in
place; the claimed automatic navigate-away does not happen. -/
theorem emptyQuiz_no_auto_navigation :
    (fetchQuizAttempt emptyQuizDb "a1" "u1" initialState).navigatedAway
      = false ∧
    (fetchQuizAttempt emptyQuizDb "a1" "u1" initialState).toastError
      = false ∧
    render (fetchQuizAttempt emptyQuizDb "a1" "u1" initialState).state
      = RenderView.errorCard := by
  refine ⟨rfl, rfl, rfl⟩

/-- C4 (amended): a quiz with zero questions is treated as invalid — once
loading has finished, the controller refuses to render a session for it and
renders the user-visible error card instead (which offers a button to
navigate away); loading such a quiz itself succeeds with no automatic
navigation and no error toast. -/
theorem emptyQuiz_refuses_session (db : Db) (attemptId userId : String)
    (a : QuizAttempt) (Q : Quiz)
    (ha : singleAttempt db attemptId userId = some a)
    (hq : singleQuiz db a.quiz_id = some Q)
    (hempty : Q.questions = []) :
    render (fetchQuizAttempt db attemptId userId initialState).state
      = RenderView.errorCard ∧
    render (fetchQuizAttempt db attemptId userId initialState).state
      ≠ RenderView.session ∧
    (fetchQuizAttempt db attemptId userId initialState).navigatedAway
      = false ∧
    (fetchQuizAttempt db attemptId userId initialState).toastError
      = false := by
  have hres : fetchQuizAttempt db attemptId userId initialState =
      { state := { initialState with
          attempt := some a
          quiz := some Q
          questions := Q.questions
          loading := false }
        failure := none
        toastError := false
        navigatedAway := false } := by
    unfold fetchQuizAttempt
    rw [ha]
    simp only [hq]
  have hcard : render (fetchQuizAttempt db attemptId userId initialState).state
      = RenderView.errorCard := by
    rw [hres]
    unfold render
    simp [initialState, hempty]
  refine ⟨hcard, ?_, ?_, ?_⟩
  · rw [hcard]
    intro hc
    exact RenderView.noConfusion hc
  · rw [hres]
  · rw [hres]

/-- Witness for the amended C4 at `emptyQuizDb`. -/
theorem emptyQuiz_refuses_session_witness :
    render (fetchQuizAttempt emptyQuizDb "a1" "u1" initialState).state
      = RenderView.errorCard ∧
    render (fetchQuizAttempt emptyQuizDb "a1" "u1" initialState).state
      ≠ RenderView.session ∧
    (fetchQuizAttempt emptyQuizDb "a1" "u1" initialState).navigatedAway
      = false ∧
    (fetchQuizAttempt emptyQuizDb "a1" "u1" initialState).toastError
      = false :=
  emptyQuiz_refuses_session emptyQuizDb "a1" "u1"
    { id := "a1", quiz_id := "q1", score := 0, answers := [],
      attempt_number := 1, student_id := "u1" }
    { id := "q1", subject := "math", chapter := none, questions := [],
      max_score := 100, type := "daily" }
    rfl rfl rfl

/-- JSON body of a proxy response: the success shape `(answer: ...)` or the
failure shape `(error: ...)`. -/
inductive RespBody
  | answer (text : String)
  | error (message : String)
deriving DecidableEq, Repr

/-- An HTTP response of the proxy.  The success path passes no explicit
status, which the runtime serves as 200. -/
structure HttpResponse where
  status : Nat
  body : RespBody
deriving DecidableEq, Repr

/-- The outcome of the single upstream completion-API call: a 2xx response
carrying the first candidate's text when present (`response.ok`), or a
non-ok response with its status and error body. -/
inductive Upstream
  | ok (candidateText : Option String)
  | apiFail (status : Nat) (body : String)
deriving DecidableEq, Repr

/-- JS truthiness of the `question` field: a missing field and the empty
string are both falsy (`if (!question)`). -/
def questionFalsy : Option String → Bool
  | none => true
  | some q => q == ""

/-- The `gemini-chat` request handler: rejects a falsy `question` with 400
before anything else; a missing API key throws, caught as 500; otherwise it
issues the one upstream call — a non-ok upstream response throws
(`Gemini API error: status body`), caught as 500; an ok response yields the
candidate text, or the fixed fallback sentence when that text is absent or
empty (the `||` default), returned as the 200 success body.  The
conversation-storage block (best-effort insert when an authorization header
resolves to a user) writes only a log table and does not alter the
response, so it is not modelled.  The second component records whether the
upstream call was made. -/
def geminiChatHandler (question : Option String) (apiKeyPresent : Bool)
    (upstream : Upstream) : HttpResponse × Bool :=
  if questionFalsy question then
    ({ status := 400, body := RespBody.error "Question is required" }, false)
  else if !apiKeyPresent then
    ({ status := 500, body := RespBody.error "GEMINI_API_KEY not configured" },
      false)
  else
    match upstream with
    | Upstream.apiFail st b =>
      ({ status := 500
         body := RespBody.error
           ("Gemini API error: " ++ toString st ++ " " ++ b) }, true)
    | Upstream.ok text =>
      let aiAnswer :=
        match text with
        | some t =>
          if t == "" then "Sorry, I could not generate a response." else t
        | none => "Sorry, I could not generate a response."
      ({ status := 200, body := RespBody.answer aiAnswer }, true)

/-- C8: a request whose `question` is missing or empty is answered 400 with
the validation error body and no upstream call is made; an upstream
failure on a valid request is answered 500; the two statuses are
distinct. -/
theorem proxy_rejects_blank_question (question : Option String)
    (apiKeyPresent : Bool) (upstream : Upstream)
    (hfalsy : questionFalsy question = true) :
    geminiChatHandler question apiKeyPresent upstream =
      ({ status := 400, body := RespBody.error "Question is required" },
        false) ∧
    (∀ (q : String) (st : Nat) (b : String), questionFalsy (some q) = false →
      (geminiChatHandler (some q) true (Upstream.apiFail st b)).1.status
        = 500) ∧
    (400 : Nat) ≠ 500 := by
  refine ⟨?_, ?_, by omega⟩
  · unfold geminiChatHandler
    rw [if_pos hfalsy]
  · intro q st b hq
    unfold geminiChatHandler
    rw [if_neg (by simp [hq])]
    rfl

/-- Witness for C8: the empty-string question is rejected with 400 and no
upstream call, while an upstream 503 failure on the question "hi" is
answered 500. -/
theorem proxy_rejects_blank_question_witness :
    geminiChatHandler (some "") true (Upstream.ok (some "text")) =
      ({ status := 400, body := RespBody.error "Question is required" },
        false) ∧
    (geminiChatHandler (some "hi") true
      (Upstream.apiFail 503 "unavailable")).1.status = 500 := by
  have h := proxy_rejects_blank_question (some "") true
    (Upstream.ok (some "text")) (by decide)
  exact ⟨h.1, h.2.1 "hi" 503 "unavailable" (by decide)⟩

/-- C9: when the upstream call returns ok but its body carries no candidate
text, the proxy still answers with the 200 success shape, whose answer is
the fixed fallback sentence — not an error response. -/
theorem proxy_fallback_on_empty_candidates (q : String)
    (hq : questionFalsy (some q) = false) :
    geminiChatHandler (some q) true (Upstream.ok none) =
      ({ status := 200
         body := RespBody.answer "Sorry, I could not generate a response." },
        true) := by
  unfold geminiChatHandler
  rw [if_neg (by simp [hq])]
  rfl

/-- Witness for C9 at the question "hi". -/
theorem proxy_fallback_on_empty_candidates_witness :
    geminiChatHandler (some "hi") true (Upstream.ok none) =
      ({ status := 200
         body := RespBody.answer "Sorry, I could not generate a response." },
        true) :=
  proxy_fallback_on_empty_candidates "hi" (by decide)
